import Mathlib

/-!
Shallow embedding of the smart-transaction submission hook
(`SmartTransactionHook` in `app/scripts/lib/transaction/smart-transactions.ts`)
and of the gas-fee-token modal selection logic
(`ui/pages/confirmations/components/confirm/info/shared/gas-fee-token-modal`).

External controller services (SmartTransactionsController, TransactionController,
ApprovalController and the messenger pub/sub bus) are modelled as an
environment of oracles; the calls the hook makes on them are recorded as an explicit
effect trace, and the static/instance approval-flow bookkeeping is threaded as
explicit state.
-/

namespace SmartTx

/-- Transaction types used by the hook (subset of
the `TransactionType` enum of the transaction controller package). -/
inductive TransactionType
  | bridge
  | bridgeApproval
  | swapAndSend
  | swapApproval
  | swap
  | simpleSend
  | contractInteraction
  deriving DecidableEq, Repr

/-- Type `TransactionParams` from the transaction controller package; only the
fields the hook reads or writes. The required `from` field is named `from_`
(`from` is a Lean keyword). -/
structure TransactionParams where
  from_ : String
  to_ : Option String
  data : Option String
  gas : Option String
  maxFeePerGas : Option String
  maxPriorityFeePerGas : Option String
  chainId : Option String
  deriving DecidableEq, Repr

/-- The transaction metadata consumed by the hook. The envelope-type
information consulted by `isLegacyTransaction`
(`shared/modules/transaction.utils`, not among the sources) is abstracted as
the boolean field `isLegacy`. -/
structure TransactionMeta where
  id : String
  chainId : String
  origin : Option String
  type : Option TransactionType
  txParams : TransactionParams
  isLegacy : Bool
  deriving DecidableEq, Repr

/-- Modelled from the spec: `isLegacyTransaction` from
`shared/modules/transaction.utils` is not among the sources; whether a
transaction is a legacy (pre-EIP-1559) transaction is abstracted as a boolean
field of the metadata, read off here. -/
def isLegacyTransaction (m : TransactionMeta) : Bool := m.isLegacy

/-- Smart-transaction statuses (`SmartTransactionStatuses` from
`@metamask/smart-transactions-controller`). -/
inductive SmartTransactionStatuses
  | PENDING
  | SUCCESS
  | REVERTED
  | UNKNOWN
  | RESOLVED
  | CANCELLED
  deriving DecidableEq, Repr

/-- The `statusMetadata` of a smart transaction; `minedHash` is the empty string
until the transaction is mined (the source tests it for truthiness). -/
structure StatusMetadata where
  minedHash : String
  deriving DecidableEq, Repr

/-- A `SmartTransactionsController:smartTransaction` event payload; only the
fields the handlers of the hook read. -/
structure SmartTransaction where
  uuid : String
  status : Option SmartTransactionStatuses
  statusMetadata : Option StatusMetadata
  deriving DecidableEq, Repr

/-- One fee suggestion from the fees API. -/
structure Fee where
  maxFeePerGas : Nat
  maxPriorityFeePerGas : Nat
  deriving DecidableEq, Repr

/-- A group of fee suggestions (`IndividualTxFees`); only `fees` is read. -/
structure IndividualTxFees where
  fees : List Fee
  deriving DecidableEq, Repr

/-- The `getFees` response (`Fees` from the smart-transactions controller). -/
structure Fees where
  approvalTxFees : Option IndividualTxFees
  tradeTxFees : Option IndividualTxFees
  deriving DecidableEq, Repr

/-- The `smartTransactions` part of the feature flags. -/
structure SmartTransactionsFlags where
  expectedDeadline : Option Nat
  maxDeadline : Option Nat
  extensionReturnTxHashAsap : Option Bool
  deriving DecidableEq, Repr

/-- Type `FeatureFlags` as declared in the hook module. -/
structure FeatureFlags where
  extensionActive : Bool
  mobileActive : Bool
  smartTransactions : SmartTransactionsFlags
  deriving DecidableEq, Repr

/-- An entry of the optional batch (`PublishBatchHookTransaction`); only
`signedTx` is read by the hook. -/
structure PublishBatchHookTransaction where
  signedTx : String
  deriving DecidableEq, Repr

/-- The response of `submitSignedTransactions` on the relay controller. -/
structure SubmitTransactionResponse where
  uuid : String
  txHash : Option String
  txHashes : Option (List String)
  deriving DecidableEq, Repr

/-- Type `SubmitSmartTransactionRequest` (the controllers themselves live in the
environment below). -/
structure SubmitSmartTransactionRequest where
  transactionMeta : TransactionMeta
  signedTransactionInHex : Option String
  isSmartTransaction : Bool
  featureFlags : FeatureFlags
  transactions : Option (List PublishBatchHookTransaction)
  deriving Repr

/-- JavaScript truthiness of an optional string (undefined and the empty string are
falsy). -/
def truthyOptStr : Option String → Bool
  | some v => v ≠ ""
  | none => false

/-- Constant `ORIGIN_METAMASK` from `shared/constants/app` (not among the sources);
modelled from the spec as the origin string of the extension itself. -/
def ORIGIN_METAMASK : String := "metamask"

/-- Modelled from the spec: `CANCEL_GAS_LIMIT_DEC` from
`shared/constants/smartTransactions` is not among the sources; the source
comments that cancel transactions must use a gas limit of 21000. -/
def CANCEL_GAS_LIMIT_DEC : Nat := 21000

/-- Modelled from the spec: `decimalToHex` from
`shared/modules/conversion.utils` is not among the sources; it renders a
decimal value as a lowercase hexadecimal string without a `0x` tag. -/
def decimalToHex (n : Nat) : String := String.mk (Nat.toDigits 16 n)

/-- Constructor field `#shouldShowStatusPage`:
`Boolean(type !== bridge || (transactions && transactions.length > 0))`. -/
def shouldShowStatusPage (r : SubmitSmartTransactionRequest) : Bool :=
  r.transactionMeta.type ≠ some TransactionType.bridge
    || (match r.transactions with
        | some txs => txs.length > 0
        | none => false)

/-- The `submit` guard: transaction types unsupported for smart transactions
(`swapAndSend`, `swapApproval`, `bridgeApproval`); `false` when the type is
absent. -/
def unsupportedTransactionType : Option TransactionType → Bool
  | some ty =>
      ty == TransactionType.swapAndSend
        || ty == TransactionType.swapApproval
        || ty == TransactionType.bridgeApproval
  | none => false

/-- The calls the hook makes on its external services, recorded in order. -/
inductive Effect
  | startFlow
  | endFlow (id : String)
  | acceptRequest (id : String)
  | getFees (params : TransactionParams)
  | approveTransactionsWithSameNonce (txs : List TransactionParams)
  | submitSignedTransactions (signed : List String) (signedCanceled : List String)
  | addApprovalRequest (flowId : String) (uuid : String)
  | subscribeStatusUpdates (uuid : String)
  | subscribeWaitForHash (uuid : String)
  deriving DecidableEq, Repr

/-- The external services: results of the controller calls the hook awaits,
and the stream of `SmartTransactionsController:smartTransaction` events
published after the hook subscribes. `Except.error` models a thrown error
(carrying its message). -/
structure Env where
  startFlowId : String
  endFlowThrows : Bool
  acceptRequestThrows : Bool
  getFees : Except String Fees
  approveTransactionsWithSameNonce : List TransactionParams → List String
  submitSignedTransactions : Except String SubmitTransactionResponse
  events : List SmartTransaction

/-- The mutable bookkeeping of the hook: the static `#sharedApprovalFlowId`
(shared across instances) and the instance fields `#approvalFlowId` and
`#approvalFlowEnded`. -/
structure HookState where
  sharedApprovalFlowId : String
  approvalFlowId : String
  approvalFlowEnded : Bool
  deriving DecidableEq, Repr

/-- Method `#endExistingApprovalFlow`: calls `ApprovalController:endFlow` then
`ApprovalController:acceptRequest` on the given flow ID and clears the shared
flow ID; a thrown error is caught (and then the clearing is skipped). -/
def endExistingApprovalFlow (env : Env) (s : HookState) (approvalFlowId : String) :
    HookState × List Effect :=
  if env.endFlowThrows then
    (s, [Effect.endFlow approvalFlowId])
  else if env.acceptRequestThrows then
    (s, [Effect.endFlow approvalFlowId, Effect.acceptRequest approvalFlowId])
  else
    ({ s with sharedApprovalFlowId := "" },
      [Effect.endFlow approvalFlowId, Effect.acceptRequest approvalFlowId])

/-- Method `#startApprovalFlow`: ends any existing shared flow, then calls
`ApprovalController:startFlow` and records the new flow ID in the instance
field and the shared static field. -/
def startApprovalFlow (env : Env) (s : HookState) : HookState × List Effect :=
  let e :=
    if s.sharedApprovalFlowId ≠ "" then
      endExistingApprovalFlow env s s.sharedApprovalFlowId
    else (s, [])
  ({ e.1 with approvalFlowId := env.startFlowId,
              sharedApprovalFlowId := env.startFlowId },
    e.2 ++ [Effect.startFlow])

/-- Method `#onApproveOrReject`: a no-op when the status page is not shown or the
flow was already ended; otherwise marks the flow ended, calls
`ApprovalController:endFlow` on the flow ID of the instance (errors ignored)
and clears the shared flow ID when the two are equal. -/
def onApproveOrReject (ssp : Bool) (s : HookState) : HookState × List Effect :=
  if !ssp || s.approvalFlowEnded then
    (s, [])
  else
    ({ s with approvalFlowEnded := true,
              sharedApprovalFlowId :=
                if s.sharedApprovalFlowId == s.approvalFlowId then ""
                else s.sharedApprovalFlowId },
      [Effect.endFlow s.approvalFlowId])

/-- Method `#processApprovalIfNeeded`: when the status page is shown, adds
the approval request (on the flow ID of the instance) and subscribes the
status-page-update listener. -/
def processApprovalIfNeeded (ssp : Bool) (s : HookState) (uuid : String) : List Effect :=
  if ssp then
    [Effect.addApprovalRequest s.approvalFlowId uuid,
     Effect.subscribeStatusUpdates uuid]
  else []

/-- Method `#applyFeeToTransaction`: the transaction parameters with the fee
values written (hex-encoded) into `maxFeePerGas` and `maxPriorityFeePerGas`;
for cancel transactions the gas is forced to 21000 and the transaction is
turned into a self-transfer with empty data. -/
def applyFeeToTransaction (txParams : TransactionParams) (fee : Fee) (isCancel : Bool) :
    TransactionParams :=
  let unsignedTransaction : TransactionParams :=
    { txParams with
      maxFeePerGas := some ("0x" ++ decimalToHex fee.maxFeePerGas)
      maxPriorityFeePerGas := some ("0x" ++ decimalToHex fee.maxPriorityFeePerGas)
      gas := if isCancel then some ("0x" ++ decimalToHex CANCEL_GAS_LIMIT_DEC)
             else txParams.gas }
  if isCancel then
    { unsignedTransaction with to_ := some unsignedTransaction.from_, data := some "0x" }
  else unsignedTransaction

/-- JavaScript `tx.chainId || chainId`, defaulting an absent (or empty)
chain ID to that of the hook. -/
def jsOrChainId (txChainId : Option String) (chainId : String) : String :=
  match txChainId with
  | some c => if c = "" then chainId else c
  | none => chainId

/-- Method `#createSignedTransactions`: one unsigned transaction per fee, chain IDs
defaulted, approved with the same nonce by the transaction controller; throws
when the chain ID is missing. Returns the effect trace alongside the signed
transactions. -/
def createSignedTransactions (env : Env) (txParams : TransactionParams)
    (chainId : String) (fees : List Fee) (isCancel : Bool) :
    Except String (List Effect × List String) :=
  if chainId = "" then
    Except.error "Transaction params and chainId are required"
  else
    let unsignedTransactions := fees.map (fun fee => applyFeeToTransaction txParams fee isCancel)
    let transactionsWithChainId := unsignedTransactions.map
      (fun tx => { tx with chainId := some (jsOrChainId tx.chainId chainId) })
    Except.ok
      ([Effect.approveTransactionsWithSameNonce transactionsWithChainId],
       env.approveTransactionsWithSameNonce transactionsWithChainId)

/-- Method `#signAndSubmitTransactions`: chooses the signed transactions (batch
entries with a truthy `signedTx`, or the pre-signed transaction, or fresh
signatures over the fee suggestions, or none) and submits them to the relay
with an empty cancel list. Returns the effect trace and the relay
response (or the thrown error). -/
def signAndSubmitTransactions (r : SubmitSmartTransactionRequest) (env : Env)
    (getFeesResponse : Option Fees) :
    List Effect × Except String SubmitTransactionResponse :=
  let hasBatch : Bool :=
    match r.transactions with
    | some txs => txs.length > 0
    | none => false
  let signedResult : Except String (List Effect × List String) :=
    if hasBatch then
      Except.ok
        ([], ((r.transactions.getD []).filter (fun tx => tx.signedTx ≠ "")).map
              (fun tx => tx.signedTx))
    else if truthyOptStr r.signedTransactionInHex then
      Except.ok ([], [r.signedTransactionInHex.getD ""])
    else
      match getFeesResponse with
      | some f =>
          createSignedTransactions env r.transactionMeta.txParams
            r.transactionMeta.chainId ((f.tradeTxFees.map IndividualTxFees.fees).getD [])
            false
      | none => Except.ok ([], [])
  match signedResult with
  | Except.error e => ([], Except.error e)
  | Except.ok p =>
      (p.1 ++ [Effect.submitSignedTransactions p.2 []],
       env.submitSignedTransactions)

/-- Whether a published event is the one `#waitForTransactionHash` (and the
status-page listener) acts on: matching uuid and a status that is present and
not `PENDING`. -/
def isFinalStatusEvent (uuid : String) (e : SmartTransaction) : Bool :=
  e.uuid == uuid
    && !(e.status == none || e.status == some SmartTransactionStatuses.PENDING)

/-- The value `#waitForTransactionHash` resolves with at a qualifying event:
the mined hash when truthy, otherwise `none` (JavaScript `null`). -/
def resolveEvent (e : SmartTransaction) : Option String :=
  match e.statusMetadata with
  | some m => if m.minedHash ≠ "" then some m.minedHash else none
  | none => none

/-- Method `#waitForTransactionHash` over the published event stream: `none` when the
promise never resolves, otherwise `some` of the resolved value (itself `none`
for JavaScript `null`). -/
def waitForTransactionHash (uuid : String) : List SmartTransaction → Option (Option String)
  | [] => none
  | e :: rest =>
      if e.uuid == uuid then
        if e.status == none || e.status == some SmartTransactionStatuses.PENDING then
          waitForTransactionHash uuid rest
        else
          some (resolveEvent e)
      else waitForTransactionHash uuid rest

/-- The observable outcome of `submit`. -/
inductive SubmitResult
  | regular
  | success (transactionHash : String)
  | thrown (message : String)
  | hang
  deriving DecidableEq, Repr

/-- Method `submit`: final hook state, effect trace, and outcome; `regular` is the
`{ transactionHash: undefined }` fallback, `thrown` a propagated error, and
`hang` the case where the awaited hash promise never resolves. -/
def submit (r : SubmitSmartTransactionRequest) (env : Env) (s : HookState) :
    HookState × List Effect × SubmitResult :=
  if !r.isSmartTransaction
      || unsupportedTransactionType r.transactionMeta.type
      || isLegacyTransaction r.transactionMeta then
    (s, [], SubmitResult.regular)
  else
    let ssp := shouldShowStatusPage r
    let st := if ssp then startApprovalFlow env s else (s, [])
    let tFees :=
      [Effect.getFees { r.transactionMeta.txParams with chainId := some r.transactionMeta.chainId }]
    match env.getFees with
    | Except.error _ =>
        let o := onApproveOrReject ssp st.1
        (o.1, st.2 ++ tFees ++ o.2, SubmitResult.regular)
    | Except.ok getFeesResponse =>
        let sub := signAndSubmitTransactions r env (some getFeesResponse)
        match sub.2 with
        | Except.error e =>
            let o := onApproveOrReject ssp st.1
            (o.1, st.2 ++ tFees ++ sub.1 ++ o.2, SubmitResult.thrown e)
        | Except.ok resp =>
            if resp.uuid = "" then
              let o := onApproveOrReject ssp st.1
              (o.1, st.2 ++ tFees ++ sub.1 ++ o.2,
               SubmitResult.thrown "No smart transaction UUID")
            else
              let tApproval := processApprovalIfNeeded ssp st.1 resp.uuid
              if r.featureFlags.smartTransactions.extensionReturnTxHashAsap.getD false
                  && truthyOptStr resp.txHash then
                (st.1, st.2 ++ tFees ++ sub.1 ++ tApproval,
                 SubmitResult.success (resp.txHash.getD ""))
              else
                let tWait := [Effect.subscribeWaitForHash resp.uuid]
                match waitForTransactionHash resp.uuid env.events with
                | none =>
                    (st.1, st.2 ++ tFees ++ sub.1 ++ tApproval ++ tWait, SubmitResult.hang)
                | some none =>
                    let o := onApproveOrReject ssp st.1
                    (o.1, st.2 ++ tFees ++ sub.1 ++ tApproval ++ tWait ++ o.2,
                     SubmitResult.thrown
                       "Transaction does not have a transaction hash, there was a problem")
                | some (some hsh) =>
                    (st.1, st.2 ++ tFees ++ sub.1 ++ tApproval ++ tWait,
                     SubmitResult.success hsh)

/-- The observable outcome of `submitBatch`; `regular` is the `undefined`
fallback and `success` carries the transaction hashes of the `results`
entries in order. -/
inductive SubmitBatchResult
  | regular
  | success (results : List String)
  | thrown (message : String)
  | hang
  deriving DecidableEq, Repr

/-- Method `submitBatch`: final hook state, effect trace, and outcome. -/
def submitBatch (r : SubmitSmartTransactionRequest) (env : Env) (s : HookState) :
    HookState × List Effect × SubmitBatchResult :=
  if !r.isSmartTransaction then
    (s, [], SubmitBatchResult.regular)
  else
    let ssp := shouldShowStatusPage r
    let st := if ssp then startApprovalFlow env s else (s, [])
    let sub := signAndSubmitTransactions r env none
    match sub.2 with
    | Except.error e =>
        let o := onApproveOrReject ssp st.1
        (o.1, st.2 ++ sub.1 ++ o.2, SubmitBatchResult.thrown e)
    | Except.ok resp =>
        if resp.uuid = "" then
          let o := onApproveOrReject ssp st.1
          (o.1, st.2 ++ sub.1 ++ o.2, SubmitBatchResult.thrown "No smart transaction UUID")
        else
          let tApproval := processApprovalIfNeeded ssp st.1 resp.uuid
          let tWait := [Effect.subscribeWaitForHash resp.uuid]
          match waitForTransactionHash resp.uuid env.events with
          | none =>
              (st.1, st.2 ++ sub.1 ++ tApproval ++ tWait, SubmitBatchResult.hang)
          | some none =>
              let o := onApproveOrReject ssp st.1
              (o.1, st.2 ++ sub.1 ++ tApproval ++ tWait ++ o.2,
               SubmitBatchResult.thrown
                 "Transaction does not have a transaction hash, there was a problem")
          | some (some _) =>
              (st.1, st.2 ++ sub.1 ++ tApproval ++ tWait,
               SubmitBatchResult.success ((resp.txHashes).getD []))

end SmartTx

namespace GasFeeModal

/-- Constant `NATIVE_TOKEN_ADDRESS` from `useGasFeeToken`: the string 0x0
padded on the right with zeros to 42 characters. -/
def NATIVE_TOKEN_ADDRESS : String := "0x0000000000000000000000000000000000000000"

/-- A gas-fee token of a confirmation; only the fields the modal reads. -/
structure GasFeeToken where
  tokenAddress : String
  symbol : String
  deriving DecidableEq, Repr

/-- The part of the transaction metadata of the current confirmation that
`GasFeeTokenModal` reads. -/
structure ConfirmationMeta where
  gasFeeTokens : Option (List GasFeeToken)
  selectedGasFeeToken : Option String
  deriving DecidableEq, Repr

/-- The `gasFeeTokenAddresses` list of the modal: the native token address
followed by the gas-fee-token addresses of the confirmation in order. -/
def gasFeeTokenAddresses (c : ConfirmationMeta) : List String :=
  NATIVE_TOKEN_ADDRESS :: (c.gasFeeTokens.getD []).map GasFeeToken.tokenAddress

/-- The `isSelected` value of the modal for a list item:
`selectedGasFeeToken?.toLowerCase() === tokenAddress.toLowerCase() ||
 (!selectedGasFeeToken && tokenAddress === NATIVE_TOKEN_ADDRESS)`. -/
def isSelectedItem (c : ConfirmationMeta) (tokenAddress : String) : Bool :=
  (match c.selectedGasFeeToken with
   | some sel => sel.toLower == tokenAddress.toLower
   | none => false)
    || (c.selectedGasFeeToken == none && tokenAddress == NATIVE_TOKEN_ADDRESS)

/-- The rendered list: the address of each item paired with its `isSelected`
value, in rendering order. -/
def gasFeeTokenModalItems (c : ConfirmationMeta) : List (String × Bool) :=
  (gasFeeTokenAddresses c).map (fun a => (a, isSelectedItem c a))

end GasFeeModal

open SmartTx GasFeeModal

/-! Concrete fixtures used by witnesses and counterexamples. -/

def txParams0 : TransactionParams :=
  { from_ := "0xf39fd6e51aad88f6f4ce6ab8827279cfffb92266", to_ := some "0x70997970c51812dc3a010c7d01b50e0d17dc79c8",
    data := some "0xa9059cbb", gas := some "0x5208",
    maxFeePerGas := some "0x1", maxPriorityFeePerGas := some "0x1", chainId := none }

def meta0 : TransactionMeta :=
  { id := "tx-1", chainId := "0x1", origin := some "metamask",
    type := some TransactionType.simpleSend, txParams := txParams0, isLegacy := false }

def flags0 : FeatureFlags :=
  { extensionActive := true, mobileActive := false,
    smartTransactions :=
      { expectedDeadline := none, maxDeadline := none, extensionReturnTxHashAsap := none } }

def req0 : SubmitSmartTransactionRequest :=
  { transactionMeta := meta0, signedTransactionInHex := none, isSmartTransaction := true,
    featureFlags := flags0, transactions := none }

def fee0 : Fee := { maxFeePerGas := 100, maxPriorityFeePerGas := 2 }

def fees0 : Fees := { approvalTxFees := none, tradeTxFees := some { fees := [fee0] } }

def resp0 : SubmitTransactionResponse :=
  { uuid := "uuid-1", txHash := some "0xabc", txHashes := some ["0xabc", "0xdef"] }

def ev0 : SmartTransaction :=
  { uuid := "uuid-1", status := some SmartTransactionStatuses.SUCCESS,
    statusMetadata := some { minedHash := "0xmined" } }

def env0 : Env :=
  { startFlowId := "flow-1", endFlowThrows := false, acceptRequestThrows := false,
    getFees := Except.ok fees0,
    approveTransactionsWithSameNonce := fun l => l.map (fun _ => "0xsigned"),
    submitSignedTransactions := Except.ok resp0,
    events := [ev0] }

def s0 : HookState := { sharedApprovalFlowId := "", approvalFlowId := "", approvalFlowEnded := false }

/-- C8: when the request is not a smart transaction, or the type is
`swapAndSend`/`swapApproval`/`bridgeApproval`, or the transaction is legacy,
`submit` returns the regular-submission fallback immediately, with no effect
on any service and no state change. -/
theorem submit_guard_frame (r : SubmitSmartTransactionRequest) (env : Env) (s : HookState)
    (h : r.isSmartTransaction = false
        ∨ unsupportedTransactionType r.transactionMeta.type = true
        ∨ isLegacyTransaction r.transactionMeta = true) :
    submit r env s = (s, [], SubmitResult.regular) := by
  unfold submit
  rcases h with h | h | h <;> simp [h]

/-- Witness for C8 at a concrete non-smart-transaction request. -/
theorem submit_guard_frame_witness :
    submit { req0 with isSmartTransaction := false } env0 s0 = (s0, [], SubmitResult.regular) :=
  submit_guard_frame { req0 with isSmartTransaction := false } env0 s0 (Or.inl rfl)

/-- C4: an event is acted on exactly when its uuid matches and its status is
present and not `PENDING`, and `#waitForTransactionHash` resolves at the
first such event, with its mined hash (or `null` when the hash is absent);
streams without such an event never resolve the promise. -/
theorem waitForTransactionHash_first_final_event :
    (∀ uuid e, isFinalStatusEvent uuid e = true ↔
        (e.uuid = uuid ∧ e.status ≠ none
          ∧ e.status ≠ some SmartTransactionStatuses.PENDING))
    ∧ ∀ uuid events,
        waitForTransactionHash uuid events =
          (events.find? (isFinalStatusEvent uuid)).map resolveEvent := by
  constructor
  · intro uuid e
    simp [isFinalStatusEvent, and_assoc]
  · intro uuid events
    induction events with
    | nil => rfl
    | cons e rest ih =>
        by_cases h1 : (e.uuid == uuid) = true
        · by_cases h2 :
            (e.status == none || e.status == some SmartTransactionStatuses.PENDING) = true
          · rw [waitForTransactionHash, if_pos h1, if_pos h2, ih,
              List.find?_cons_of_neg]
            simp [isFinalStatusEvent, h1, h2]
          · rw [waitForTransactionHash, if_pos h1, if_neg h2,
              List.find?_cons_of_pos]
            · rfl
            · simp [isFinalStatusEvent, h1]
              simpa using h2
        · rw [waitForTransactionHash, if_neg h1, ih, List.find?_cons_of_neg]
          simp [isFinalStatusEvent, h1]

def confirmNativeDup : ConfirmationMeta :=
  { gasFeeTokens := some [{ tokenAddress := NATIVE_TOKEN_ADDRESS, symbol := "WNAT" }],
    selectedGasFeeToken := none }

/-- C10 counterexample: with `selectedGasFeeToken` absent and a gas-fee token
whose address equals the native token address, the modal marks the second
item selected as well, so not exactly the first (native) item is selected. -/
theorem gasFeeTokenModal_native_duplicate_cex :
    gasFeeTokenModalItems confirmNativeDup =
      [(NATIVE_TOKEN_ADDRESS, true), (NATIVE_TOKEN_ADDRESS, true)] := by
  decide

/-- C10 (amended): the modal lists the native token address first and then
every gas-fee token address in order; an item is selected iff its address
matches `selectedGasFeeToken` case-insensitively or `selectedGasFeeToken` is
absent and the address of the item is the native address; when
`selectedGasFeeToken` is absent, the first (native) item is selected, a token
item is selected iff its address is the native address, and the first item is
the only one selected whenever no gas-fee token uses the native address. -/
theorem gasFeeTokenModal_selection :
    (∀ c, gasFeeTokenAddresses c =
        NATIVE_TOKEN_ADDRESS :: (c.gasFeeTokens.getD []).map GasFeeToken.tokenAddress)
    ∧ (∀ c addr, isSelectedItem c addr = true ↔
        ((∃ sel, c.selectedGasFeeToken = some sel ∧ sel.toLower = addr.toLower)
          ∨ (c.selectedGasFeeToken = none ∧ addr = NATIVE_TOKEN_ADDRESS)))
    ∧ (∀ c, c.selectedGasFeeToken = none →
        gasFeeTokenModalItems c =
          (NATIVE_TOKEN_ADDRESS, true)
            :: (c.gasFeeTokens.getD []).map
                (fun t => (t.tokenAddress, t.tokenAddress == NATIVE_TOKEN_ADDRESS)))
    ∧ (∀ c, c.selectedGasFeeToken = none →
        (∀ t ∈ c.gasFeeTokens.getD [], t.tokenAddress ≠ NATIVE_TOKEN_ADDRESS) →
        gasFeeTokenModalItems c =
          (NATIVE_TOKEN_ADDRESS, true)
            :: (c.gasFeeTokens.getD []).map (fun t => (t.tokenAddress, false))) := by
  refine ⟨fun c => rfl, ?_, ?_, ?_⟩
  · intro c addr
    cases h : c.selectedGasFeeToken with
    | none => simp [isSelectedItem, h]
    | some sel => simp [isSelectedItem, h]
  · intro c h
    simp [gasFeeTokenModalItems, gasFeeTokenAddresses, isSelectedItem, h, List.map_map,
      Function.comp_def]
  · intro c h hnat
    simp only [gasFeeTokenModalItems, gasFeeTokenAddresses, List.map_cons, List.map_map]
    have h0 : isSelectedItem c NATIVE_TOKEN_ADDRESS = true := by simp [isSelectedItem, h]
    rw [h0]
    congr 1
    refine List.map_congr_left fun t ht => ?_
    simp [isSelectedItem, h, hnat t ht, Function.comp_def]

/-- Witness for the amended claim C10 at a concrete confirmation. -/
theorem gasFeeTokenModal_selection_witness :
    gasFeeTokenModalItems
        { gasFeeTokens := some [{ tokenAddress := "0xABC", symbol := "USDC" }],
          selectedGasFeeToken := none } =
      [(NATIVE_TOKEN_ADDRESS, true), ("0xABC", false)] := by
  have h := gasFeeTokenModal_selection.2.2.2
      { gasFeeTokens := some [{ tokenAddress := "0xABC", symbol := "USDC" }],
        selectedGasFeeToken := none } rfl (by decide)
  simpa using h

/-- Helper: for `submitBatch` (no fee response) the signing stage never
throws, so the relay outcome is exactly that of the controller. -/
theorem signAndSubmit_none_snd (r : SubmitSmartTransactionRequest) (env : Env) :
    (signAndSubmitTransactions r env none).2 = env.submitSignedTransactions := by
  unfold signAndSubmitTransactions
  by_cases hb : (match r.transactions with
      | some txs => txs.length > 0
      | none => false) = true
  · simp [hb]
  · by_cases hp : truthyOptStr r.signedTransactionInHex = true
    · simp [hb, hp]
    · simp [hb, hp]

/-- C7: `submitBatch` falls back (returns `undefined`) whenever the request is
not a smart transaction, and on success returns one result per relay `txHash`
in order (the empty list when the relay response has no `txHashes`). -/
theorem submitBatch_results :
    (∀ r env s, r.isSmartTransaction = false →
        submitBatch r env s = (s, [], SubmitBatchResult.regular))
    ∧ (∀ r env s resp hsh, r.isSmartTransaction = true →
        env.submitSignedTransactions = Except.ok resp →
        resp.uuid ≠ "" →
        waitForTransactionHash resp.uuid env.events = some (some hsh) →
        (submitBatch r env s).2.2 = SubmitBatchResult.success ((resp.txHashes).getD [])) := by
  constructor
  · intro r env s h
    unfold submitBatch
    simp [h]
  · intro r env s resp hsh hsm hsub huuid hwait
    unfold submitBatch
    simp [hsm, signAndSubmit_none_snd, hsub, huuid, hwait]

/-- Witness for C7 at concrete requests: the non-smart fallback and a
successful batch whose relay response lists two hashes. -/
theorem submitBatch_results_witness :
    submitBatch { req0 with isSmartTransaction := false } env0 s0 = (s0, [], SubmitBatchResult.regular)
    ∧ (submitBatch req0 env0 s0).2.2 = SubmitBatchResult.success ["0xabc", "0xdef"] := by
  refine ⟨submitBatch_results.1 { req0 with isSmartTransaction := false } env0 s0 rfl, ?_⟩
  have h := submitBatch_results.2 req0 env0 s0 resp0 "0xmined" rfl rfl (by decide) (by decide)
  simpa using h

/-- Helper: `#startApprovalFlow` when no shared flow exists. -/
theorem startApprovalFlow_of_no_shared (env : Env) (s : HookState)
    (h : s.sharedApprovalFlowId = "") :
    startApprovalFlow env s =
      ({ s with approvalFlowId := env.startFlowId, sharedApprovalFlowId := env.startFlowId },
       [Effect.startFlow]) := by
  unfold startApprovalFlow
  simp [h]

/-- Helper: `#startApprovalFlow` over an existing shared flow, when the
approval controller does not throw. -/
theorem startApprovalFlow_of_shared (env : Env) (s : HookState)
    (h1 : env.endFlowThrows = false) (h2 : env.acceptRequestThrows = false)
    (h3 : s.sharedApprovalFlowId ≠ "") :
    startApprovalFlow env s =
      ({ s with approvalFlowId := env.startFlowId, sharedApprovalFlowId := env.startFlowId },
       [Effect.endFlow s.sharedApprovalFlowId, Effect.acceptRequest s.sharedApprovalFlowId,
        Effect.startFlow]) := by
  unfold startApprovalFlow endExistingApprovalFlow
  simp [h1, h2, h3]

/-- Helper: `#onApproveOrReject` is a no-op without a status page or once the
flow has been ended. -/
theorem onApproveOrReject_skip (ssp : Bool) (s : HookState)
    (h : ssp = false ∨ s.approvalFlowEnded = true) :
    onApproveOrReject ssp s = (s, []) := by
  unfold onApproveOrReject
  rcases h with h | h <;> simp [h]

/-- Helper: the first `#onApproveOrReject` with a status page ends the
flow of the instance and conditionally clears the shared flow ID. -/
theorem onApproveOrReject_run (s : HookState) (h : s.approvalFlowEnded = false) :
    onApproveOrReject true s =
      ({ s with approvalFlowEnded := true,
                sharedApprovalFlowId :=
                  if s.sharedApprovalFlowId == s.approvalFlowId then ""
                  else s.sharedApprovalFlowId },
       [Effect.endFlow s.approvalFlowId]) := by
  unfold onApproveOrReject
  simp [h]

/-- C3: `#startApprovalFlow` first ends an existing shared flow (endFlow,
acceptRequest) before starting the new one and records the new flow ID in
both the instance field and the shared static field; `#onApproveOrReject`
ends the flow of the instance at most once (no-op once `#approvalFlowEnded`
is set) and clears the shared flow ID only when it equals the flow ID of the
instance. -/
theorem approvalFlow_lifecycle :
    (∀ env s, env.endFlowThrows = false → env.acceptRequestThrows = false →
        s.sharedApprovalFlowId ≠ "" →
        startApprovalFlow env s =
          ({ s with approvalFlowId := env.startFlowId,
                    sharedApprovalFlowId := env.startFlowId },
           [Effect.endFlow s.sharedApprovalFlowId,
            Effect.acceptRequest s.sharedApprovalFlowId, Effect.startFlow]))
    ∧ (∀ env s, s.sharedApprovalFlowId = "" →
        startApprovalFlow env s =
          ({ s with approvalFlowId := env.startFlowId,
                    sharedApprovalFlowId := env.startFlowId },
           [Effect.startFlow]))
    ∧ (∀ ssp s, s.approvalFlowEnded = true → onApproveOrReject ssp s = (s, []))
    ∧ (∀ s, s.approvalFlowEnded = false →
        onApproveOrReject true s =
          ({ s with approvalFlowEnded := true,
                    sharedApprovalFlowId :=
                      if s.sharedApprovalFlowId == s.approvalFlowId then ""
                      else s.sharedApprovalFlowId },
           [Effect.endFlow s.approvalFlowId])) :=
  ⟨fun env s h1 h2 h3 => startApprovalFlow_of_shared env s h1 h2 h3,
   fun env s h => startApprovalFlow_of_no_shared env s h,
   fun ssp s h => onApproveOrReject_skip ssp s (Or.inr h),
   fun s h => onApproveOrReject_run s h⟩

def sShared : HookState :=
  { sharedApprovalFlowId := "flow-0", approvalFlowId := "", approvalFlowEnded := false }

def sEnded : HookState :=
  { sharedApprovalFlowId := "flow-1", approvalFlowId := "flow-1", approvalFlowEnded := true }

def sOwn : HookState :=
  { sharedApprovalFlowId := "flow-0", approvalFlowId := "flow-0", approvalFlowEnded := false }

/-- Witness for C3 at concrete states: ending an old shared flow, starting
fresh, the once-only guard, and the conditional clearing of the shared ID. -/
theorem approvalFlow_lifecycle_witness :
    startApprovalFlow env0 sShared =
      ({ sharedApprovalFlowId := "flow-1", approvalFlowId := "flow-1",
         approvalFlowEnded := false },
       [Effect.endFlow "flow-0", Effect.acceptRequest "flow-0", Effect.startFlow])
    ∧ startApprovalFlow env0 s0 =
        ({ sharedApprovalFlowId := "flow-1", approvalFlowId := "flow-1",
           approvalFlowEnded := false },
         [Effect.startFlow])
    ∧ onApproveOrReject true sEnded = (sEnded, [])
    ∧ onApproveOrReject true sOwn =
        ({ sharedApprovalFlowId := "", approvalFlowId := "flow-0",
           approvalFlowEnded := true },
         [Effect.endFlow "flow-0"]) :=
  ⟨(approvalFlow_lifecycle.1 env0 sShared rfl rfl (by decide)).trans (by decide),
   (approvalFlow_lifecycle.2.1 env0 s0 rfl).trans (by decide),
   approvalFlow_lifecycle.2.2.1 true sEnded rfl,
   (approvalFlow_lifecycle.2.2.2 sOwn rfl).trans (by decide)⟩

/-- The unsigned transactions `#createSignedTransactions` builds for the
trade fees in the non-cancel case: one per fee, chain IDs defaulted. -/
def unsignedTransactionsForFees (txParams : TransactionParams) (chainId : String)
    (fees : List Fee) : List TransactionParams :=
  (fees.map (fun fee => applyFeeToTransaction txParams fee false)).map
    (fun tx => { tx with chainId := some (jsOrChainId tx.chainId chainId) })

/-- Helper: `#createSignedTransactions` in the non-cancel case with a chain
ID present. -/
theorem createSignedTransactions_trade (env : Env) (txParams : TransactionParams)
    (chainId : String) (fees : List Fee) (h : chainId ≠ "") :
    createSignedTransactions env txParams chainId fees false =
      Except.ok
        ([Effect.approveTransactionsWithSameNonce
            (unsignedTransactionsForFees txParams chainId fees)],
         env.approveTransactionsWithSameNonce
           (unsignedTransactionsForFees txParams chainId fees)) := by
  unfold createSignedTransactions unsignedTransactionsForFees
  simp [h]

/-- Helper: `#signAndSubmitTransactions` in single-transaction mode without a
pre-signed transaction: sign the fee suggestions and submit them with an
empty cancel list. -/
theorem signAndSubmit_fees (r : SubmitSmartTransactionRequest) (env : Env) (f : Fees)
    (hnb : r.transactions = none) (hpre : r.signedTransactionInHex = none)
    (hcid : r.transactionMeta.chainId ≠ "") :
    signAndSubmitTransactions r env (some f) =
      ([Effect.approveTransactionsWithSameNonce
          (unsignedTransactionsForFees r.transactionMeta.txParams r.transactionMeta.chainId
            ((f.tradeTxFees.map IndividualTxFees.fees).getD [])),
        Effect.submitSignedTransactions
          (env.approveTransactionsWithSameNonce
            (unsignedTransactionsForFees r.transactionMeta.txParams r.transactionMeta.chainId
              ((f.tradeTxFees.map IndividualTxFees.fees).getD []))) []],
       env.submitSignedTransactions) := by
  unfold signAndSubmitTransactions
  simp [hnb, hpre, truthyOptStr, createSignedTransactions_trade, hcid]

def envFeeFail : Env := { env0 with getFees := Except.error "fee failure" }

def envRelayFail : Env := { env0 with submitSignedTransactions := Except.error "relay failure" }

def envNullHash : Env :=
  { env0 with events :=
      [{ uuid := "uuid-1", status := some SmartTransactionStatuses.SUCCESS,
         statusMetadata := none }] }

/-- C1 counterexample: a relay-submission failure is rethrown by `submit`, not
turned into the `{ transactionHash: undefined }` fallback. -/
theorem submit_relay_error_propagates_cex :
    (submit req0 envRelayFail s0).2.2 = SubmitResult.thrown "relay failure"
    ∧ (submit req0 envRelayFail s0).2.2 ≠ SubmitResult.regular := by
  decide

/-- C1 (amended): only a fee-retrieval failure makes `submit` fall back to
regular on-chain submission; a failure while signing or submitting to the
relay is rethrown with its error, and a null transaction hash from the
status events is turned into a thrown error. -/
theorem submit_failure_handling :
    (∀ r env s e, r.isSmartTransaction = true →
        unsupportedTransactionType r.transactionMeta.type = false →
        isLegacyTransaction r.transactionMeta = false →
        env.getFees = Except.error e →
        (submit r env s).2.2 = SubmitResult.regular)
    ∧ (∀ r env s f e, r.isSmartTransaction = true →
        unsupportedTransactionType r.transactionMeta.type = false →
        isLegacyTransaction r.transactionMeta = false →
        env.getFees = Except.ok f →
        (signAndSubmitTransactions r env (some f)).2 = Except.error e →
        (submit r env s).2.2 = SubmitResult.thrown e)
    ∧ (∀ r env s f resp, r.isSmartTransaction = true →
        unsupportedTransactionType r.transactionMeta.type = false →
        isLegacyTransaction r.transactionMeta = false →
        env.getFees = Except.ok f →
        (signAndSubmitTransactions r env (some f)).2 = Except.ok resp →
        resp.uuid ≠ "" →
        (r.featureFlags.smartTransactions.extensionReturnTxHashAsap.getD false
            && truthyOptStr resp.txHash) = false →
        waitForTransactionHash resp.uuid env.events = some none →
        (submit r env s).2.2
          = SubmitResult.thrown
              "Transaction does not have a transaction hash, there was a problem") := by
  refine ⟨?_, ?_, ?_⟩
  · intro r env s e hsm huns hleg hfees
    unfold submit
    simp [hsm, huns, hleg, hfees]
  · intro r env s f e hsm huns hleg hfees hsub
    unfold submit
    simp [hsm, huns, hleg, hfees, hsub]
  · intro r env s f resp hsm huns hleg hfees hsub huuid hasap hwait
    unfold submit
    simp [hsm, huns, hleg, hfees, hsub, huuid, hasap, hwait]

/-- Witness for the amended claim C1 at concrete environments: fee failure
falls back, relay failure and a null hash are thrown. -/
theorem submit_failure_handling_witness :
    (submit req0 envFeeFail s0).2.2 = SubmitResult.regular
    ∧ (submit req0 envRelayFail s0).2.2 = SubmitResult.thrown "relay failure"
    ∧ (submit req0 envNullHash s0).2.2
        = SubmitResult.thrown
            "Transaction does not have a transaction hash, there was a problem" :=
  ⟨submit_failure_handling.1 req0 envFeeFail s0 "fee failure" rfl rfl rfl rfl,
   submit_failure_handling.2.1 req0 envRelayFail s0 fees0 "relay failure" rfl rfl rfl rfl rfl,
   submit_failure_handling.2.2 req0 envNullHash s0 fees0 resp0 rfl rfl rfl rfl rfl
     (by decide) rfl rfl⟩

def flagsAsap : FeatureFlags :=
  { flags0 with smartTransactions :=
      { flags0.smartTransactions with extensionReturnTxHashAsap := some true } }

def reqAsap : SubmitSmartTransactionRequest := { req0 with featureFlags := flagsAsap }

/-- C2 counterexample: with `extensionReturnTxHashAsap` enabled and a relay
`txHash`, `submit` returns that hash without registering the hash-wait
subscription, and the returned hash is not the one the status events carry —
so a supported, non-legacy smart transaction need not end with the
wait-for-hash step. -/
theorem submit_returnTxHashAsap_skips_wait_cex :
    (submit reqAsap env0 s0).2.2 = SubmitResult.success "0xabc"
    ∧ Effect.subscribeWaitForHash "uuid-1" ∉ (submit reqAsap env0 s0).2.1
    ∧ waitForTransactionHash "uuid-1" env0.events = some (some "0xmined") := by
  decide

/-- C2 (amended): for a supported, non-legacy, non-bridge smart transaction
submitted singly (no batch, no pre-signed transaction), with no prior shared
flow, when every step succeeds and the hash is not returned early via
`extensionReturnTxHashAsap`, `submit` performs exactly: start the approval
flow, fetch fees, sign the fee transactions and submit them to the relay,
create the approval request and register the status-update listener,
subscribe for the transaction hash, and return the hash resolved from the
status events. -/
theorem submit_step_order (r : SubmitSmartTransactionRequest) (env : Env) (s : HookState)
    (f : Fees) (resp : SubmitTransactionResponse) (hsh : String)
    (hsm : r.isSmartTransaction = true)
    (huns : unsupportedTransactionType r.transactionMeta.type = false)
    (hleg : isLegacyTransaction r.transactionMeta = false)
    (hbr : r.transactionMeta.type ≠ some TransactionType.bridge)
    (hsh0 : s.sharedApprovalFlowId = "")
    (hnb : r.transactions = none)
    (hpre : r.signedTransactionInHex = none)
    (hcid : r.transactionMeta.chainId ≠ "")
    (hfees : env.getFees = Except.ok f)
    (hsub : env.submitSignedTransactions = Except.ok resp)
    (huuid : resp.uuid ≠ "")
    (hasap : (r.featureFlags.smartTransactions.extensionReturnTxHashAsap.getD false
        && truthyOptStr resp.txHash) = false)
    (hwait : waitForTransactionHash resp.uuid env.events = some (some hsh)) :
    submit r env s =
      ({ s with approvalFlowId := env.startFlowId, sharedApprovalFlowId := env.startFlowId },
       [Effect.startFlow,
        Effect.getFees
          { r.transactionMeta.txParams with chainId := some r.transactionMeta.chainId },
        Effect.approveTransactionsWithSameNonce
          (unsignedTransactionsForFees r.transactionMeta.txParams r.transactionMeta.chainId
            ((f.tradeTxFees.map IndividualTxFees.fees).getD [])),
        Effect.submitSignedTransactions
          (env.approveTransactionsWithSameNonce
            (unsignedTransactionsForFees r.transactionMeta.txParams r.transactionMeta.chainId
              ((f.tradeTxFees.map IndividualTxFees.fees).getD []))) [],
        Effect.addApprovalRequest env.startFlowId resp.uuid,
        Effect.subscribeStatusUpdates resp.uuid,
        Effect.subscribeWaitForHash resp.uuid],
       SubmitResult.success hsh) := by
  have hssp : shouldShowStatusPage r = true := by
    simp [shouldShowStatusPage, hbr]
  unfold submit
  simp [hsm, huns, hleg, hssp, startApprovalFlow_of_no_shared env s hsh0, hfees,
    signAndSubmit_fees r env f hnb hpre hcid, hsub, huuid, processApprovalIfNeeded,
    hasap, hwait]

/-- Witness for the amended claim C2: the full effect trace of a concrete
successful submission. -/
theorem submit_step_order_witness :
    submit req0 env0 s0 =
      ({ sharedApprovalFlowId := "flow-1", approvalFlowId := "flow-1",
         approvalFlowEnded := false },
       [Effect.startFlow,
        Effect.getFees { txParams0 with chainId := some "0x1" },
        Effect.approveTransactionsWithSameNonce
          [{ txParams0 with
              maxFeePerGas := some "0x64",
              maxPriorityFeePerGas := some "0x2",
              chainId := some "0x1" }],
        Effect.submitSignedTransactions ["0xsigned"] [],
        Effect.addApprovalRequest "flow-1" "uuid-1",
        Effect.subscribeStatusUpdates "uuid-1",
        Effect.subscribeWaitForHash "uuid-1"],
       SubmitResult.success "0xmined") :=
  (submit_step_order req0 env0 s0 fees0 resp0 "0xmined" rfl rfl rfl (by decide) rfl rfl rfl
      (by decide) rfl rfl (by decide) rfl rfl).trans (by decide)

/-- The approval-flow-UI effects: starting the flow, adding the approval
request, and subscribing the status-page listener. -/
def Effect.isApprovalUiEffect : Effect → Bool
  | Effect.startFlow => true
  | Effect.addApprovalRequest _ _ => true
  | Effect.subscribeStatusUpdates _ => true
  | _ => false

/-- The relay-submission effect. -/
def Effect.isSubmitToRelay : Effect → Bool
  | Effect.submitSignedTransactions _ _ => true
  | _ => false

/-- Helper: `#onApproveOrReject` without a status page is a no-op. -/
theorem onApproveOrReject_false (s : HookState) : onApproveOrReject false s = (s, []) := by
  simp [onApproveOrReject]

/-- Helper: `#processApprovalIfNeeded` without a status page emits nothing. -/
theorem processApprovalIfNeeded_false (s : HookState) (u : String) :
    processApprovalIfNeeded false s u = [] := rfl

/-- Helper: the possible effect traces of `#startApprovalFlow`. -/
theorem startApprovalFlow_snd_shape (env : Env) (s : HookState) :
    (startApprovalFlow env s).2 = [Effect.startFlow]
    ∨ (startApprovalFlow env s).2 =
        [Effect.endFlow s.sharedApprovalFlowId, Effect.startFlow]
    ∨ (startApprovalFlow env s).2 =
        [Effect.endFlow s.sharedApprovalFlowId,
         Effect.acceptRequest s.sharedApprovalFlowId, Effect.startFlow] := by
  unfold startApprovalFlow endExistingApprovalFlow
  by_cases h1 : s.sharedApprovalFlowId ≠ ""
  · by_cases h2 : env.endFlowThrows = true
    · simp [h1, h2]
    · by_cases h3 : env.acceptRequestThrows = true
      · simp [h1, h2, h3]
      · simp [h1, h2, h3]
  · simp [h1]

/-- Helper: every effect `#signAndSubmitTransactions` emits is either the
same-nonce approval or the relay submission. -/
theorem signAndSubmit_effect (r : SubmitSmartTransactionRequest) (env : Env)
    (o : Option Fees) (e : Effect) (he : e ∈ (signAndSubmitTransactions r env o).1) :
    (∃ txs, e = Effect.approveTransactionsWithSameNonce txs)
    ∨ ∃ signed, e = Effect.submitSignedTransactions signed [] := by
  unfold signAndSubmitTransactions at he
  by_cases hb : (match r.transactions with
      | some txs => txs.length > 0
      | none => false) = true
  · simp [hb] at he
    exact Or.inr ⟨_, he⟩
  · by_cases hp : truthyOptStr r.signedTransactionInHex = true
    · simp [hb, hp] at he
      exact Or.inr ⟨_, he⟩
    · cases o with
      | none =>
          simp [hb, hp] at he
          exact Or.inr ⟨_, he⟩
      | some f =>
          simp only [hb, hp] at he
          by_cases hc : r.transactionMeta.chainId = ""
          · simp [createSignedTransactions, hc] at he
          · rw [createSignedTransactions_trade env r.transactionMeta.txParams
              r.transactionMeta.chainId _ hc] at he
            simp at he
            rcases he with he | he
            · exact Or.inl ⟨_, he⟩
            · exact Or.inr ⟨_, he⟩

/-- Helper: the full outcome of `submit` on the early-return-hash branch. -/
theorem submit_asap_trace (r : SubmitSmartTransactionRequest) (env : Env) (s : HookState)
    (f : Fees) (resp : SubmitTransactionResponse)
    (hsm : r.isSmartTransaction = true)
    (huns : unsupportedTransactionType r.transactionMeta.type = false)
    (hleg : isLegacyTransaction r.transactionMeta = false)
    (hfees : env.getFees = Except.ok f)
    (hsub : (signAndSubmitTransactions r env (some f)).2 = Except.ok resp)
    (huuid : resp.uuid ≠ "")
    (hasap : (r.featureFlags.smartTransactions.extensionReturnTxHashAsap.getD false
        && truthyOptStr resp.txHash) = true) :
    submit r env s =
      ((if shouldShowStatusPage r then startApprovalFlow env s else (s, [])).1,
       (if shouldShowStatusPage r then startApprovalFlow env s else (s, [])).2
         ++ [Effect.getFees
              { r.transactionMeta.txParams with chainId := some r.transactionMeta.chainId }]
         ++ (signAndSubmitTransactions r env (some f)).1
         ++ processApprovalIfNeeded (shouldShowStatusPage r)
              (if shouldShowStatusPage r then startApprovalFlow env s else (s, [])).1
              resp.uuid,
       SubmitResult.success (resp.txHash.getD "")) := by
  unfold submit
  simp [hsm, huns, hleg, hfees, hsub, huuid, hasap]

/-- Helper: the full outcome of `submit` on the wait-for-hash branch with a
resolved hash. -/
theorem submit_wait_trace (r : SubmitSmartTransactionRequest) (env : Env) (s : HookState)
    (f : Fees) (resp : SubmitTransactionResponse) (hsh : String)
    (hsm : r.isSmartTransaction = true)
    (huns : unsupportedTransactionType r.transactionMeta.type = false)
    (hleg : isLegacyTransaction r.transactionMeta = false)
    (hfees : env.getFees = Except.ok f)
    (hsub : (signAndSubmitTransactions r env (some f)).2 = Except.ok resp)
    (huuid : resp.uuid ≠ "")
    (hasap : (r.featureFlags.smartTransactions.extensionReturnTxHashAsap.getD false
        && truthyOptStr resp.txHash) = false)
    (hwait : waitForTransactionHash resp.uuid env.events = some (some hsh)) :
    submit r env s =
      ((if shouldShowStatusPage r then startApprovalFlow env s else (s, [])).1,
       (if shouldShowStatusPage r then startApprovalFlow env s else (s, [])).2
         ++ [Effect.getFees
              { r.transactionMeta.txParams with chainId := some r.transactionMeta.chainId }]
         ++ (signAndSubmitTransactions r env (some f)).1
         ++ processApprovalIfNeeded (shouldShowStatusPage r)
              (if shouldShowStatusPage r then startApprovalFlow env s else (s, [])).1
              resp.uuid
         ++ [Effect.subscribeWaitForHash resp.uuid],
       SubmitResult.success hsh) := by
  unfold submit
  simp [hsm, huns, hleg, hfees, hsub, huuid, hasap, hwait]

/-- Helper: an effect of `#signAndSubmitTransactions` is never an
approval-UI effect. -/
theorem signAndSubmit_effect_not_ui (r : SubmitSmartTransactionRequest) (env : Env)
    (o : Option Fees) (e : Effect) (he : e ∈ (signAndSubmitTransactions r env o).1) :
    Effect.isApprovalUiEffect e = false := by
  rcases signAndSubmit_effect r env o e he with ⟨txs, h⟩ | ⟨sg, h⟩ <;> subst h <;> rfl

/-- Helper: when the guards pass and the status page is shown, the trace of
`submit` begins with the `#startApprovalFlow` effects. -/
theorem submit_trace_flowStart (r : SubmitSmartTransactionRequest) (env : Env) (s : HookState)
    (hg : (!r.isSmartTransaction || unsupportedTransactionType r.transactionMeta.type
        || isLegacyTransaction r.transactionMeta) = false)
    (hssp : shouldShowStatusPage r = true) :
    ∃ rest, (submit r env s).2.1 = (startApprovalFlow env s).2 ++ rest := by
  unfold submit
  rw [if_neg (by simp [hg])]
  simp only [hssp, if_true, List.append_assoc]
  split
  · exact ⟨_, rfl⟩
  · split
    · exact ⟨_, rfl⟩
    · split
      · exact ⟨_, rfl⟩
      · split
        · exact ⟨_, rfl⟩
        · split
          · exact ⟨_, rfl⟩
          · exact ⟨_, rfl⟩
          · exact ⟨_, rfl⟩

/-- Helper: when the request is a smart transaction and the status page is
shown, the trace of `submitBatch` begins with the `#startApprovalFlow`
effects. -/
theorem submitBatch_trace_flowStart (r : SubmitSmartTransactionRequest) (env : Env)
    (s : HookState) (hsm : r.isSmartTransaction = true)
    (hssp : shouldShowStatusPage r = true) :
    ∃ rest, (submitBatch r env s).2.1 = (startApprovalFlow env s).2 ++ rest := by
  unfold submitBatch
  rw [if_neg (by simp [hsm])]
  simp only [hssp, if_true, List.append_assoc]
  split
  · exact ⟨_, rfl⟩
  · split
    · exact ⟨_, rfl⟩
    · split
      · exact ⟨_, rfl⟩
      · exact ⟨_, rfl⟩
      · exact ⟨_, rfl⟩

/-- C9: when `extensionReturnTxHashAsap` is enabled and the relay response
carries a `txHash`, `submit` returns that hash without ever registering the
wait-for-hash subscription; when the flag is unset or the response lacks a
`txHash`, it registers the wait-for-hash subscription and returns the hash
resolved from the status events, throwing when that hash is null. -/
theorem submit_returnTxHashAsap :
    (∀ r env s f resp, r.isSmartTransaction = true →
        unsupportedTransactionType r.transactionMeta.type = false →
        isLegacyTransaction r.transactionMeta = false →
        env.getFees = Except.ok f →
        (signAndSubmitTransactions r env (some f)).2 = Except.ok resp →
        resp.uuid ≠ "" →
        r.featureFlags.smartTransactions.extensionReturnTxHashAsap = some true →
        truthyOptStr resp.txHash = true →
        (submit r env s).2.2 = SubmitResult.success (resp.txHash.getD "")
          ∧ ∀ u, Effect.subscribeWaitForHash u ∉ (submit r env s).2.1)
    ∧ (∀ r env s f resp hsh, r.isSmartTransaction = true →
        unsupportedTransactionType r.transactionMeta.type = false →
        isLegacyTransaction r.transactionMeta = false →
        env.getFees = Except.ok f →
        (signAndSubmitTransactions r env (some f)).2 = Except.ok resp →
        resp.uuid ≠ "" →
        (r.featureFlags.smartTransactions.extensionReturnTxHashAsap.getD false
            && truthyOptStr resp.txHash) = false →
        waitForTransactionHash resp.uuid env.events = some (some hsh) →
        (submit r env s).2.2 = SubmitResult.success hsh
          ∧ Effect.subscribeWaitForHash resp.uuid ∈ (submit r env s).2.1)
    ∧ (∀ r env s f resp, r.isSmartTransaction = true →
        unsupportedTransactionType r.transactionMeta.type = false →
        isLegacyTransaction r.transactionMeta = false →
        env.getFees = Except.ok f →
        (signAndSubmitTransactions r env (some f)).2 = Except.ok resp →
        resp.uuid ≠ "" →
        (r.featureFlags.smartTransactions.extensionReturnTxHashAsap.getD false
            && truthyOptStr resp.txHash) = false →
        waitForTransactionHash resp.uuid env.events = some none →
        (submit r env s).2.2
          = SubmitResult.thrown
              "Transaction does not have a transaction hash, there was a problem") := by
  refine ⟨?_, ?_, ?_⟩
  · intro r env s f resp hsm huns hleg hfees hsub huuid hflag htx
    have hasap : (r.featureFlags.smartTransactions.extensionReturnTxHashAsap.getD false
        && truthyOptStr resp.txHash) = true := by
      rw [hflag, htx]
      rfl
    have ht := submit_asap_trace r env s f resp hsm huns hleg hfees hsub huuid hasap
    rw [ht]
    refine ⟨rfl, ?_⟩
    intro u hmem
    simp only [List.append_assoc, List.mem_append, List.mem_singleton] at hmem
    rcases hmem with hmem | hmem | hmem | hmem
    · by_cases hssp : shouldShowStatusPage r = true
      · rw [if_pos hssp] at hmem
        rcases startApprovalFlow_snd_shape env s with h | h | h <;> rw [h] at hmem <;>
          simp at hmem
      · rw [if_neg hssp] at hmem
        simp at hmem
    · simp at hmem
    · rcases signAndSubmit_effect r env (some f) _ hmem with ⟨txs, h⟩ | ⟨sg, h⟩ <;> simp at h
    · by_cases hssp : shouldShowStatusPage r = true
      · rw [hssp] at hmem
        simp [processApprovalIfNeeded] at hmem
      · rw [Bool.not_eq_true] at hssp
        rw [hssp] at hmem
        simp [processApprovalIfNeeded] at hmem
  · intro r env s f resp hsh hsm huns hleg hfees hsub huuid hasap hwait
    have ht := submit_wait_trace r env s f resp hsh hsm huns hleg hfees hsub huuid hasap hwait
    rw [ht]
    exact ⟨rfl, by simp⟩
  · intro r env s f resp hsm huns hleg hfees hsub huuid hasap hwait
    unfold submit
    simp [hsm, huns, hleg, hfees, hsub, huuid, hasap, hwait]

/-- Witness for C9: a concrete early-returned relay hash (no wait
subscription), a concrete waited hash (with the subscription), and a concrete
null-hash throw. -/
theorem submit_returnTxHashAsap_witness :
    ((submit reqAsap env0 s0).2.2 = SubmitResult.success "0xabc"
      ∧ Effect.subscribeWaitForHash "uuid-1" ∉ (submit reqAsap env0 s0).2.1)
    ∧ ((submit req0 env0 s0).2.2 = SubmitResult.success "0xmined"
      ∧ Effect.subscribeWaitForHash "uuid-1" ∈ (submit req0 env0 s0).2.1)
    ∧ (submit req0 envNullHash s0).2.2
        = SubmitResult.thrown
            "Transaction does not have a transaction hash, there was a problem" :=
  ⟨⟨(submit_returnTxHashAsap.1 reqAsap env0 s0 fees0 resp0 rfl rfl rfl rfl rfl
        (by decide) rfl rfl).1,
    (submit_returnTxHashAsap.1 reqAsap env0 s0 fees0 resp0 rfl rfl rfl rfl rfl
        (by decide) rfl rfl).2 "uuid-1"⟩,
   submit_returnTxHashAsap.2.1 req0 env0 s0 fees0 resp0 "0xmined" rfl rfl rfl rfl rfl
      (by decide) rfl rfl,
   submit_returnTxHashAsap.2.2 req0 envNullHash s0 fees0 resp0 rfl rfl rfl rfl rfl
      (by decide) rfl rfl⟩

/-- C6: the status page is skipped exactly when the type is `bridge` and the
request carries no non-empty batch list; in that case neither `submit` nor
`submitBatch` emits any approval-UI effect (flow start, approval request,
status-page listener); in every other case that reaches submission they start
the approval flow before anything is submitted to the relay. -/
theorem statusPage_gating :
    (∀ r, shouldShowStatusPage r = false ↔
        (r.transactionMeta.type = some TransactionType.bridge
          ∧ (r.transactions = none ∨ r.transactions = some [])))
    ∧ (∀ r env s, shouldShowStatusPage r = false →
        (∀ e ∈ (submit r env s).2.1, Effect.isApprovalUiEffect e = false)
          ∧ (∀ e ∈ (submitBatch r env s).2.1, Effect.isApprovalUiEffect e = false))
    ∧ (∀ r env s, shouldShowStatusPage r = true →
        r.isSmartTransaction = true →
        unsupportedTransactionType r.transactionMeta.type = false →
        isLegacyTransaction r.transactionMeta = false →
        ∃ l1 l2, (submit r env s).2.1 = l1 ++ Effect.startFlow :: l2
          ∧ ∀ e ∈ l1, Effect.isSubmitToRelay e = false)
    ∧ (∀ r env s, shouldShowStatusPage r = true →
        r.isSmartTransaction = true →
        ∃ l1 l2, (submitBatch r env s).2.1 = l1 ++ Effect.startFlow :: l2
          ∧ ∀ e ∈ l1, Effect.isSubmitToRelay e = false) := by
  refine ⟨?_, ?_, ?_, ?_⟩
  · intro r
    cases htx : r.transactions with
    | none => simp [shouldShowStatusPage, htx]
    | some l => simp [shouldShowStatusPage, htx, List.length_eq_zero]
  · intro r env s hssp
    constructor
    · intro e he
      unfold submit at he
      by_cases hg : (!r.isSmartTransaction || unsupportedTransactionType r.transactionMeta.type
          || isLegacyTransaction r.transactionMeta) = true
      · rw [if_pos hg] at he
        simp at he
      · rw [if_neg hg] at he
        cases hgf : env.getFees with
        | error e1 =>
            simp only [hgf] at he
            simp [hssp, onApproveOrReject_false] at he
            subst he
            rfl
        | ok f =>
            simp only [hgf] at he
            cases hsb : (signAndSubmitTransactions r env (some f)).2 with
            | error e2 =>
                simp only [hsb] at he
                simp [hssp, onApproveOrReject_false] at he
                rcases he with he | he
                · subst he; rfl
                · exact signAndSubmit_effect_not_ui r env (some f) e he
            | ok resp =>
                simp only [hsb] at he
                by_cases hu : resp.uuid = ""
                · simp [hssp, onApproveOrReject_false, hu] at he
                  rcases he with he | he
                  · subst he; rfl
                  · exact signAndSubmit_effect_not_ui r env (some f) e he
                · by_cases ha : (r.featureFlags.smartTransactions.extensionReturnTxHashAsap.getD
                      false && truthyOptStr resp.txHash) = true
                  · simp [hssp, hu, ha, processApprovalIfNeeded_false] at he
                    rcases he with he | he
                    · subst he; rfl
                    · exact signAndSubmit_effect_not_ui r env (some f) e he
                  · rcases hw : waitForTransactionHash resp.uuid env.events with _ | _ | h2
                    · simp only [hw] at he
                      simp [hssp, hu, ha, processApprovalIfNeeded_false] at he
                      rcases he with he | he | he
                      · subst he; rfl
                      · exact signAndSubmit_effect_not_ui r env (some f) e he
                      · subst he; rfl
                    · simp only [hw] at he
                      simp [hssp, hu, ha, processApprovalIfNeeded_false,
                        onApproveOrReject_false] at he
                      rcases he with he | he | he
                      · subst he; rfl
                      · exact signAndSubmit_effect_not_ui r env (some f) e he
                      · subst he; rfl
                    · simp only [hw] at he
                      simp [hssp, hu, ha, processApprovalIfNeeded_false] at he
                      rcases he with he | he | he
                      · subst he; rfl
                      · exact signAndSubmit_effect_not_ui r env (some f) e he
                      · subst he; rfl
    · intro e he
      unfold submitBatch at he
      by_cases hsm : r.isSmartTransaction = true
      · rw [if_neg (by simp [hsm])] at he
        cases hsb : (signAndSubmitTransactions r env none).2 with
        | error e2 =>
            simp only [hsb] at he
            simp [hssp, onApproveOrReject_false] at he
            exact signAndSubmit_effect_not_ui r env none e he
        | ok resp =>
            simp only [hsb] at he
            by_cases hu : resp.uuid = ""
            · simp [hssp, onApproveOrReject_false, hu] at he
              exact signAndSubmit_effect_not_ui r env none e he
            · rcases hw : waitForTransactionHash resp.uuid env.events with _ | _ | h2
              · simp only [hw] at he
                simp [hssp, hu, processApprovalIfNeeded_false] at he
                rcases he with he | he
                · exact signAndSubmit_effect_not_ui r env none e he
                · subst he; rfl
              · simp only [hw] at he
                simp [hssp, hu, processApprovalIfNeeded_false, onApproveOrReject_false] at he
                rcases he with he | he
                · exact signAndSubmit_effect_not_ui r env none e he
                · subst he; rfl
              · simp only [hw] at he
                simp [hssp, hu, processApprovalIfNeeded_false] at he
                rcases he with he | he
                · exact signAndSubmit_effect_not_ui r env none e he
                · subst he; rfl
      · rw [if_pos (by simp [Bool.not_eq_true] at hsm; simp [hsm])] at he
        simp at he
  · intro r env s hssp hsm huns hleg
    have hg : (!r.isSmartTransaction || unsupportedTransactionType r.transactionMeta.type
        || isLegacyTransaction r.transactionMeta) = false := by
      rw [hsm, huns, hleg]
      rfl
    obtain ⟨rest, hr⟩ := submit_trace_flowStart r env s hg hssp
    rcases startApprovalFlow_snd_shape env s with h | h | h
    · exact ⟨[], rest, by rw [hr, h]; rfl, by intro e he; simp at he⟩
    · refine ⟨[Effect.endFlow s.sharedApprovalFlowId], rest, by rw [hr, h]; rfl, ?_⟩
      intro e he
      simp at he
      subst he
      rfl
    · refine ⟨[Effect.endFlow s.sharedApprovalFlowId,
        Effect.acceptRequest s.sharedApprovalFlowId], rest, by rw [hr, h]; rfl, ?_⟩
      intro e he
      simp at he
      rcases he with he | he <;> subst he <;> rfl
  · intro r env s hssp hsm
    obtain ⟨rest, hr⟩ := submitBatch_trace_flowStart r env s hsm hssp
    rcases startApprovalFlow_snd_shape env s with h | h | h
    · exact ⟨[], rest, by rw [hr, h]; rfl, by intro e he; simp at he⟩
    · refine ⟨[Effect.endFlow s.sharedApprovalFlowId], rest, by rw [hr, h]; rfl, ?_⟩
      intro e he
      simp at he
      subst he
      rfl
    · refine ⟨[Effect.endFlow s.sharedApprovalFlowId,
        Effect.acceptRequest s.sharedApprovalFlowId], rest, by rw [hr, h]; rfl, ?_⟩
      intro e he
      simp at he
      rcases he with he | he <;> subst he <;> rfl

def reqBridge : SubmitSmartTransactionRequest :=
  { req0 with transactionMeta := { meta0 with type := some TransactionType.bridge } }

/-- Witness for C6 at concrete requests: a bridge transaction without a batch
skips every approval-UI effect, and an ordinary transaction starts the flow
before the relay submission. -/
theorem statusPage_gating_witness :
    (shouldShowStatusPage reqBridge = false ↔
      (reqBridge.transactionMeta.type = some TransactionType.bridge
        ∧ (reqBridge.transactions = none ∨ reqBridge.transactions = some [])))
    ∧ Effect.isApprovalUiEffect (Effect.subscribeWaitForHash "uuid-1") = false
    ∧ (∃ l1 l2, (submit req0 env0 s0).2.1 = l1 ++ Effect.startFlow :: l2
        ∧ ∀ e ∈ l1, Effect.isSubmitToRelay e = false)
    ∧ (∃ l1 l2, (submitBatch req0 env0 s0).2.1 = l1 ++ Effect.startFlow :: l2
        ∧ ∀ e ∈ l1, Effect.isSubmitToRelay e = false) :=
  ⟨statusPage_gating.1 reqBridge,
   (statusPage_gating.2.1 reqBridge env0 s0 rfl).1 (Effect.subscribeWaitForHash "uuid-1")
     (by decide),
   statusPage_gating.2.2.1 req0 env0 s0 rfl rfl rfl rfl,
   statusPage_gating.2.2.2 req0 env0 s0 rfl rfl⟩

/-- C5: with no batch and no pre-signed transaction, exactly one unsigned
transaction is built per fee of `tradeTxFees.fees` in the `getFees` response —
`txParams` with the hex encodings (led by 0x) of the decimal fee values
written into `maxFeePerGas` and `maxPriorityFeePerGas`, gas unchanged, and
the chain ID defaulted to that of the hook when absent — all are approved with the
same nonce (one signature per fee), and the result is submitted to the relay
with an empty `signedCanceledTransactions` list. -/
theorem signAndSubmit_fee_transactions :
    (∀ txParams fee, applyFeeToTransaction txParams fee false =
        { txParams with
          maxFeePerGas := some ("0x" ++ decimalToHex fee.maxFeePerGas),
          maxPriorityFeePerGas := some ("0x" ++ decimalToHex fee.maxPriorityFeePerGas) })
    ∧ (∀ txParams chainId fees,
        (unsignedTransactionsForFees txParams chainId fees).length = fees.length)
    ∧ (∀ txParams chainId fees, txParams.chainId = none →
        ∀ tx ∈ unsignedTransactionsForFees txParams chainId fees, tx.chainId = some chainId)
    ∧ (∀ r env f tf, r.transactions = none → r.signedTransactionInHex = none →
        r.transactionMeta.chainId ≠ "" → f.tradeTxFees = some tf →
        signAndSubmitTransactions r env (some f) =
          ([Effect.approveTransactionsWithSameNonce
              (unsignedTransactionsForFees r.transactionMeta.txParams
                r.transactionMeta.chainId tf.fees),
            Effect.submitSignedTransactions
              (env.approveTransactionsWithSameNonce
                (unsignedTransactionsForFees r.transactionMeta.txParams
                  r.transactionMeta.chainId tf.fees)) []],
           env.submitSignedTransactions))
    ∧ (∀ (env : Env) (txParams : TransactionParams) (chainId : String) (fees : List Fee),
        (∀ l, (env.approveTransactionsWithSameNonce l).length = l.length) →
        (env.approveTransactionsWithSameNonce
            (unsignedTransactionsForFees txParams chainId fees)).length = fees.length) := by
  refine ⟨?_, ?_, ?_, ?_, ?_⟩
  · intro txParams fee
    rfl
  · intro txParams chainId fees
    simp [unsignedTransactionsForFees]
  · intro txParams chainId fees hnone tx htx
    simp only [unsignedTransactionsForFees, List.map_map, List.mem_map] at htx
    obtain ⟨fee, hfee, htx⟩ := htx
    subst htx
    simp [applyFeeToTransaction, jsOrChainId, hnone]
  · intro r env f tf hnb hpre hcid htf
    have h := signAndSubmit_fees r env f hnb hpre hcid
    rw [htf] at h
    simpa using h
  · intro env txParams chainId fees hlen
    rw [hlen]
    simp [unsignedTransactionsForFees]

def uTx0 : TransactionParams :=
  { txParams0 with
      maxFeePerGas := some "0x64",
      maxPriorityFeePerGas := some "0x2",
      chainId := some "0x1" }

/-- Witness for C5 at a concrete fee and request. -/
theorem signAndSubmit_fee_transactions_witness :
    applyFeeToTransaction txParams0 fee0 false =
      { txParams0 with maxFeePerGas := some "0x64", maxPriorityFeePerGas := some "0x2" }
    ∧ (unsignedTransactionsForFees txParams0 "0x1" [fee0]).length = 1
    ∧ uTx0.chainId = some "0x1"
    ∧ signAndSubmitTransactions req0 env0 (some fees0) =
        ([Effect.approveTransactionsWithSameNonce
            (unsignedTransactionsForFees txParams0 "0x1" [fee0]),
          Effect.submitSignedTransactions
            (env0.approveTransactionsWithSameNonce
              (unsignedTransactionsForFees txParams0 "0x1" [fee0])) []],
         Except.ok resp0)
    ∧ (env0.approveTransactionsWithSameNonce
          (unsignedTransactionsForFees txParams0 "0x1" [fee0])).length = 1 :=
  ⟨(signAndSubmit_fee_transactions.1 txParams0 fee0).trans (by decide),
   signAndSubmit_fee_transactions.2.1 txParams0 "0x1" [fee0],
   signAndSubmit_fee_transactions.2.2.1 txParams0 "0x1" [fee0] rfl uTx0 (by decide),
   signAndSubmit_fee_transactions.2.2.2.1 req0 env0 fees0 { fees := [fee0] } rfl rfl
     (by decide) rfl,
   signAndSubmit_fee_transactions.2.2.2.2 env0 txParams0 "0x1" [fee0]
     (fun l => by simp [env0])⟩
